import Mathlib

/-!
Verification development for the healthchecks-utilities domain checker.

This file shallowly embeds the pure logic of the repository's Python
sources (`src/actions/check.py`, `src/actions/sync.py`, `src/services.py`,
`src/file_handler.py`, `src/api_client.py`, `src/cli.py`, `src/config.py`)
as executable Lean definitions, and proves the specification's claims
about them.  Timestamps are modelled as integer seconds since the Unix
epoch (Python `datetime` subtraction yields a `timedelta`, whose `.days`
field is the floor of the difference in whole 86400-second days).
-/

/-! ## Expiry levels and tag vocabulary (actions/check.py, lines 24-37) -/

/-- `EXPIRY_LEVELS` from `actions/check.py`: `(day_threshold, tag_string)`
pairs ordered from most urgent (lowest day count) to least. -/
def EXPIRY_LEVELS : List (Int × String) :=
  [(0, "expired"),
   (7, "expires_in_<7d"),
   (30, "expires_in_<30d"),
   (60, "expires_in_<60d"),
   (90, "expires_in_<90d")]

/-- `OK_TAG` from `actions/check.py`. -/
def OK_TAG : String := "expiry_ok"

/-- `LOOKUP_FAILED_TAG` from `actions/check.py`. -/
def LOOKUP_FAILED_TAG : String := "lookup_failed"

/-- `MANAGED_EXPIRY_TAGS = [tag for _, tag in EXPIRY_LEVELS] + [OK_TAG, LOOKUP_FAILED_TAG]`. -/
def MANAGED_EXPIRY_TAGS : List String :=
  EXPIRY_LEVELS.map Prod.snd ++ [OK_TAG, LOOKUP_FAILED_TAG]

/-! ## Expiry classifier (actions/check.py, lines 74-83) -/

/-- `days_left = (expiry_date - datetime.datetime.now(...)).days`: the
`.days` field of a Python `timedelta` is the floor of the signed duration
in whole days, i.e. floor division of the second difference by 86400. -/
def days_left_of (expiryEpoch nowEpoch : Int) : Int :=
  Int.fdiv (expiryEpoch - nowEpoch) 86400

/-- The `for threshold, tag in EXPIRY_LEVELS: if days_left <= threshold:
desired_tag = tag; break` loop followed by `if desired_tag is None:
desired_tag = OK_TAG`. -/
def classifyDaysLeft (daysLeft : Int) : String :=
  match EXPIRY_LEVELS.find? (fun lt => daysLeft ≤ lt.1) with
  | some lt => lt.2
  | none => OK_TAG

/-- The desired tag computed by `check_domain_expiry`: from `days_left`
when an expiry date was resolved, `LOOKUP_FAILED_TAG` otherwise. -/
def desired_tag_for (daysLeft? : Option Int) : String :=
  match daysLeft? with
  | some d => classifyDaysLeft d
  | none => LOOKUP_FAILED_TAG

/-- The ping branch structure of `check_domain_expiry` (lines 86-101):
`true` means the healthcheck was pinged on its `/fail` endpoint. -/
def expiry_ping_is_fail (desired : String) : Bool :=
  if desired = "expired" then true
  else if desired = "expires_in_<7d" then true
  else if ["expires_in_<30d", "expires_in_<60d", "expires_in_<90d"].contains desired then false
  else false

/-- Tag-and-ping outcome of the classification section of
`check_domain_expiry`: the desired tag, and whether the ping was a
failure signal (the `expiry_date` / `else` split at lines 72 and 98). -/
def check_expiry_report (daysLeft? : Option Int) : String × Bool :=
  match daysLeft? with
  | some d => (classifyDaysLeft d, expiry_ping_is_fail (classifyDaysLeft d))
  | none => (LOOKUP_FAILED_TAG, true)

/-! ## Tag reconciler (actions/check.py lines 112-122, api_client.py lines 183-202) -/

/-- The tag-update decision of `check_domain_expiry` given the fetched
current tags: `none` means the desired tag was already present and no
remote call is made; `some newTags` means `update_check_tags` is invoked
with `newTags = [t for t in current if t not in MANAGED_EXPIRY_TAGS] + [desired]`. -/
def reconcileTags (currentTags : List String) (desired : String) : Option (List String) :=
  if desired ∈ currentTags then none
  else some (currentTags.filter (fun t => !(MANAGED_EXPIRY_TAGS.contains t)) ++ [desired])

/-- Python string `<`: lexicographic comparison of code points, a missing
character comparing below any present one. -/
def charListLt : List Char → List Char → Bool
  | _, [] => false
  | [], _ :: _ => true
  | a :: as, b :: bs => if a = b then charListLt as bs else decide (a < b)

/-- Python `a < b` on strings. -/
def pyStrLt (a b : String) : Bool := charListLt a.toList b.toList

/-- Python `a <= b` on strings (`not (b < a)`). -/
def pyStrLe (a b : String) : Bool := !(pyStrLt b a)

/-- Ordered insertion used to model Python `sorted`. -/
def insertTag (x : String) : List String → List String
  | [] => [x]
  | y :: ys => if pyStrLe x y then x :: y :: ys else y :: insertTag x ys

/-- Python `sorted` on strings (lexicographic code-point order); modelled
by insertion sort, which agrees with `sorted` on every list of strings. -/
def sortStrings (l : List String) : List String :=
  l.foldr insertTag []

/-- `update_check_tags` transmits `" ".join(sorted(tags_list))`. -/
def update_check_tags_payload (tagsList : List String) : String :=
  String.intercalate " " (sortStrings tagsList)

/-- The remote tag set after a successful `update_check_tags` call, as the
next `get_check_details` fetch reports it: the transmitted string split on
whitespace, i.e. the sorted tag list. -/
def tagsAfterUpdate (tagsList : List String) : List String :=
  sortStrings tagsList

/-! ## Marker cache (file_handler.py, lines 70-96) -/

/-- `is_marker_valid` from `file_handler.py`, with the marker file's state
modelled as `Option Int` (the mtime in epoch seconds when the file
exists).  The result pairs the returned boolean with the marker state
left on disk (`unlink` of a stale marker yields `none`).  The age
comparison `calculated_age < timedelta(hours=max_age_hours)` is in
seconds; the Python default for `max_age_hours` is 23. -/
def is_marker_valid (now : Int) (markerMtime : Option Int) (maxAgeHours : Int) :
    Bool × Option Int :=
  match markerMtime with
  | none => (false, none)
  | some mtime =>
    if now - mtime < maxAgeHours * 3600 then (true, some mtime)
    else (false, none)

/-! ## CLI exit behavior (cli.py lines 109-113, config.py lines 36-42) -/

/-- Python truthiness of an optional string: `None` and `""` are falsy. -/
def pyTruthy : Option String → Bool
  | none => false
  | some s => !(s == "")

/-- `validate_config` from `config.py`: `if not API_KEY: exit(1)`;
`some c` is a process exit with code `c`, `none` means execution
continues. -/
def validate_config (apiKey : Option String) : Option Nat :=
  if !(pyTruthy apiKey) then some 1 else none

/-- The argparse result for a `delete-markers` invocation (`mtype` models
the `--type` flag). -/
structure DeleteMarkersArgs where
  domain : Option String
  mtype : Option String
  all : Bool

/-- A parsed CLI invocation: `delete-markers` with its flags, or any other
subcommand. -/
inductive CliInvocation where
  | deleteMarkers (args : DeleteMarkersArgs)
  | other (cmd : String)

/-- The exit decision of `main` in `cli.py`: `validate_config` runs first;
then a `delete-markers` invocation with none of `--domain`, `--type`,
`--all` reaches `parser.exit(0, "\nError: ...")`; every other path
dispatches (`none`). -/
def cli_exit_code (apiKey : Option String) (inv : CliInvocation) : Option Nat :=
  match validate_config apiKey with
  | some c => some c
  | none =>
    match inv with
    | CliInvocation.deleteMarkers a =>
      if !(pyTruthy a.domain || pyTruthy a.mtype || a.all) then some 0 else none
    | CliInvocation.other _ => none

/-! ## Registry file handling (file_handler.py) and sync (actions/sync.py) -/

/-- ASCII whitespace, modelling Python's whitespace set for `str.strip()`,
`str.split()` and regex `\\s` (the rare non-ASCII whitespace code points
are out of scope). -/
def isSpaceChar (c : Char) : Bool :=
  c = ' ' || c = '\t' || c = '\n' || c = '\x0b' || c = '\x0c' || c = '\r'

/-- Python `str.strip()`: remove whitespace from both ends. -/
def pyStrip (s : String) : String :=
  String.mk (((s.toList.dropWhile isSpaceChar).reverse.dropWhile isSpaceChar).reverse)

/-- Helper for Python `str.split()` with no argument: accumulates the
current word (reversed) and splits on whitespace runs, discarding empty
pieces. -/
def splitWordsAux : List Char → List Char → List String
  | [], acc => if acc.isEmpty then [] else [String.mk acc.reverse]
  | c :: rest, acc =>
    if isSpaceChar c then
      (if acc.isEmpty then [] else [String.mk acc.reverse]) ++ splitWordsAux rest []
    else splitWordsAux rest (c :: acc)

/-- Python `str.split()` with no argument. -/
def pySplitWs (s : String) : List String := splitWordsAux s.toList []

/-- Python `str.startswith('#')`. -/
def pyStartsHash (s : String) : Bool :=
  match s.toList with
  | '#' :: _ => true
  | _ => false

/-- A processed line of the domain registry file, as built by
`sync_file_with_api` before `rewrite_domain_file` (the
`'comment_or_blank'` / `'domain'` dicts). -/
inductive Entry where
  | commentOrBlank (content : String)
  | domain (name : String) (statusUuid expiryUuid : Option String)
deriving DecidableEq

/-- `load_domains_raw` from `file_handler.py`: every file line is
`strip()`ped on read. -/
def load_domains_raw (fileLines : List String) : List String :=
  fileLines.map pyStrip

/-- The `s:`/`e:` token scan shared by `load_domains` and
`sync_file_with_api`, over `parts[1:]`: `part.split(':', 1)[1]` keeps
everything after the first colon, and a later token overwrites an
earlier one. -/
def scanUuidTokens (parts : List String) : Option String × Option String :=
  parts.foldl
    (fun acc part =>
      match part.toList with
      | 's' :: ':' :: rest => (some (String.mk rest), acc.2)
      | 'e' :: ':' :: rest => (acc.1, some (String.mk rest))
      | _ => acc)
    (none, none)

/-- Per-line processing of `sync_file_with_api` (lines 28-66): comment and
blank lines pass through; a domain line keeps each uuid only while it is
still in the API inventory.  The boolean is the line's contribution to
`file_needs_update`. -/
def sync_process_line (apiUuids : List String) (rawLine : String) : Entry × Bool :=
  if (rawLine == "") || pyStartsHash rawLine then (Entry.commentOrBlank rawLine, false)
  else
    let parts := pySplitWs rawLine
    let dom := parts.headD ""
    let uuids := scanUuidTokens parts.tail
    let sRes :=
      match uuids.1 with
      | some u => if !(u == "") && !(apiUuids.contains u) then (none, true) else (some u, false)
      | none => ((none : Option String), false)
    let eRes :=
      match uuids.2 with
      | some u => if !(u == "") && !(apiUuids.contains u) then (none, true) else (some u, false)
      | none => ((none : Option String), false)
    (Entry.domain dom sRes.1 eRes.1, sRes.2 || eRes.2)

/-- The line(s) `rewrite_domain_file` writes for one processed entry:
comment/blank content verbatim; a domain line joins
`<name> [s:<uuid>] [e:<uuid>]` with single spaces, skipping falsy uuids,
and is dropped entirely when no uuid survives (`len(line_parts) > 1`). -/
def entry_lines (e : Entry) : List String :=
  match e with
  | Entry.commentOrBlank content => [content]
  | Entry.domain name s? e? =>
    let parts := [name] ++
      (match s? with
       | some u => if !(u == "") then ["s:" ++ u] else []
       | none => []) ++
      (match e? with
       | some u => if !(u == "") then ["e:" ++ u] else []
       | none => [])
    if parts.length > 1 then [String.intercalate " " parts] else []

/-- The line `rewrite_domain_file` writes for one appended (sync-added)
entry: same joining, but written unconditionally. -/
def new_entry_lines (e : Entry) : List String :=
  match e with
  | Entry.commentOrBlank content => [content]
  | Entry.domain name s? e? =>
    [String.intercalate " "
      ([name] ++
        (match s? with
         | some u => if !(u == "") then ["s:" ++ u] else []
         | none => []) ++
        (match e? with
         | some u => if !(u == "") then ["e:" ++ u] else []
         | none => []))]

/-- `rewrite_domain_file` from `file_handler.py`, as the list of lines
written to the file (each followed by a newline in the real file).  When
`new_entries` is non-empty, the delimited sync section is appended. -/
def rewrite_domain_file (processed : List Entry) (newEntries : List Entry) : List String :=
  (processed.map entry_lines).flatten ++
    (if newEntries.isEmpty then []
     else ["", "# --- Checks Added by Sync Command ---"] ++ (newEntries.map new_entry_lines).flatten)

/-- The processed entries a sync pass derives from the file's lines. -/
def sync_processed_entries (apiUuids : List String) (fileLines : List String) : List Entry :=
  (load_domains_raw fileLines).map (fun l => (sync_process_line apiUuids l).1)

/-- The full load-process-rewrite journey of a single file line during a
sync pass. -/
def sync_line_roundtrip (apiUuids : List String) (l : String) : List String :=
  entry_lines (sync_process_line apiUuids (pyStrip l)).1

/-- A remote check as `sync_file_with_api` reads it: `uuid`, `name` and
the space-delimited `tags` string (a missing `name` field is modelled as
`""`, which is falsy like `None`). -/
structure ApiCheck where
  uuid : String
  name : String
  tags : String
deriving DecidableEq

/-- Python substring test `needle in hay`. -/
def strContains (hay needle : String) : Bool :=
  hay.toList.tails.any (fun suf => needle.toList.isPrefixOf suf)

/-- `missing_by_name[name]` update with `defaultdict` semantics: an absent
key is appended with `(None, None)` before `f` is applied; dict insertion
order is preserved. -/
def updAssocSlot (m : List (String × (Option String × Option String))) (name : String)
    (f : Option String × Option String → Option String × Option String) :
    List (String × (Option String × Option String)) :=
  match m with
  | [] => [(name, f (none, none))]
  | (k, v) :: rest => if k = name then (k, f v) :: rest else (k, v) :: updAssocSlot rest name f

/-- One iteration of the grouping loop of `sync_file_with_api` (lines
77-86): a falsy name is skipped; tags containing `'status'` set the
status slot; otherwise tags containing `'expiry'` set the expiry slot;
any other check updates nothing. -/
def sync_classify_step (m : List (String × (Option String × Option String))) (c : ApiCheck) :
    List (String × (Option String × Option String)) :=
  if c.name = "" then m
  else if strContains c.tags "status" then
    updAssocSlot m c.name (fun v => (some c.uuid, v.2))
  else if strContains c.tags "expiry" then
    updAssocSlot m c.name (fun v => (v.1, some c.uuid))
  else m

/-- The `missing_by_name` map accumulated over the unreferenced checks in
iteration order. -/
def sync_missing_by_name (missing : List ApiCheck) :
    List (String × (Option String × Option String)) :=
  missing.foldl sync_classify_step []

/-- Ordered insertion by name for `sorted(missing_by_name.items())` (names
are unique dict keys, so the tuple sort is a sort by name). -/
def insertByName (x : String × (Option String × Option String)) :
    List (String × (Option String × Option String)) →
      List (String × (Option String × Option String))
  | [] => [x]
  | y :: ys => if pyStrLe x.1 y.1 then x :: y :: ys else y :: insertByName x ys

/-- `sorted(missing_by_name.items())`. -/
def sortByName (l : List (String × (Option String × Option String))) :
    List (String × (Option String × Option String)) :=
  l.foldr insertByName []

/-- The `new_entries` list appended by `sync_file_with_api` (lines 88-89)
for a given list of unreferenced remote checks. -/
def sync_new_entries (missing : List ApiCheck) : List Entry :=
  (sortByName (sync_missing_by_name missing)).map
    (fun kv => Entry.domain kv.1 kv.2.1 kv.2.2)

/-! ## Datetime model (Python `datetime` values, seconds since epoch) -/

/-- A Python `datetime` value: calendar components plus whether
`tzinfo=timezone.utc` is attached (`tzUtc = false` models a naive
value). -/
structure PyDateTime where
  year : Nat
  month : Nat
  day : Nat
  hour : Nat
  minute : Nat
  second : Nat
  tzUtc : Bool
deriving DecidableEq

/-- Gregorian leap year. -/
def isLeapYear (y : Nat) : Bool :=
  (y % 4 == 0 && !(y % 100 == 0)) || y % 400 == 0

/-- Length of a month in the proleptic Gregorian calendar. -/
def daysInMonth (y m : Nat) : Nat :=
  if m = 2 then (if isLeapYear y then 29 else 28)
  else if m = 4 ∨ m = 6 ∨ m = 9 ∨ m = 11 then 30
  else 31

/-- Civil date from a day count relative to 1970-01-01 (the standard
era-based Gregorian conversion used by C `days_from_civil` inverses);
valid for all dates of year ≥ 1. -/
def civilFromDays (z0 : Int) : Nat × Nat × Nat :=
  let z := z0 + 719468
  let era := Int.fdiv z 146097
  let doe := (z - era * 146097).toNat
  let yoe := (doe - doe / 1460 + doe / 36524 - doe / 146096) / 365
  let y : Int := (yoe : Int) + era * 400
  let doy := doe - (365 * yoe + yoe / 4 - yoe / 100)
  let mp := (5 * doy + 2) / 153
  let d := doy - (153 * mp + 2) / 5 + 1
  let m := if mp < 10 then mp + 3 else mp - 9
  (((if m ≤ 2 then y + 1 else y)).toNat, m, d)

/-- `datetime.fromtimestamp(ts, tz=timezone.utc)`: epoch seconds to an
aware UTC datetime. -/
def dtFromEpoch (e : Int) : PyDateTime :=
  let days := Int.ediv e 86400
  let rem := (Int.emod e 86400).toNat
  let ymd := civilFromDays days
  ⟨ymd.1, ymd.2.1, ymd.2.2, rem / 3600, rem % 3600 / 60, rem % 60, true⟩

/-- Day count of a civil date relative to 1970-01-01 (year ≥ 1). -/
def daysFromCivil (y mo d : Nat) : Int :=
  let y' := if mo ≤ 2 then y - 1 else y
  let era := y' / 400
  let yoe := y' % 400
  let mp := (mo + 9) % 12
  let doy := (153 * mp + 2) / 5 + d - 1
  let doe := yoe * 365 + yoe / 4 - yoe / 100 + doy
  (era : Int) * 146097 + (doe : Int) - 719468

/-- Epoch seconds of a datetime's components read as UTC. -/
def epochOfDt (dt : PyDateTime) : Int :=
  daysFromCivil dt.year dt.month dt.day * 86400 +
    dt.hour * 3600 + dt.minute * 60 + dt.second

/-! ## Registrar fallback resolver (services.py, lines 14-76) -/

/-- Numeric value of an ASCII digit. -/
def digitVal (c : Char) : Option Nat :=
  if c.isDigit then some (c.toNat - 48) else none

/-- Parse exactly two digits. -/
def parse2 : List Char → Option (Nat × List Char)
  | a :: b :: rest =>
    match digitVal a, digitVal b with
    | some x, some y => some (10 * x + y, rest)
    | _, _ => none
  | _ => none

/-- Parse exactly four digits. -/
def parse4 : List Char → Option (Nat × List Char)
  | a :: b :: c :: d :: rest =>
    match digitVal a, digitVal b, digitVal c, digitVal d with
    | some w, some x, some y, some z => some (1000 * w + 100 * x + 10 * y + z, rest)
    | _, _, _, _ => none
  | _ => none

/-- Require one exact character. -/
def expectChar (c : Char) : List Char → Option (List Char)
  | x :: rest => if x = c then some rest else none
  | [] => none

/-- ASCII digit test (`\\d`, `str.isdigit`, `fromisoformat` digits). -/
def isDigitChar (c : Char) : Bool := c.isDigit

/-- `int` of a digit string. -/
def natOfDigits (cs : List Char) : Nat :=
  cs.foldl (fun acc c => 10 * acc + (c.toNat - 48)) 0

/-- A zone-designator character (`Z`, `+` or `-`). -/
def isTzChar (c : Char) : Bool := c == 'Z' || c == '+' || c == '-'

/-- Split the time remainder at the first zone-designator character: the
slice before it and, when one is present, that character together with
everything after it. -/
def splitAtTz : List Char → List Char × Option (Char × List Char)
  | [] => ([], none)
  | c :: r =>
    if isTzChar c then ([], some (c, r))
    else
      let p := splitAtTz r
      (c :: p.1, p.2)

/-- The fraction tail of CPython's `parse_hh_mm_ss_ff`: exactly
`min 6 remaining` characters must be digits and give the scaled
microsecond value, any further digits are skipped, and what is then left
of the slice is accepted exactly when a zone designator follows it. -/
def fracParse (s : List Char) (tzPresent : Bool) : Option Nat :=
  let toParse := min 6 s.length
  let chunk := s.take toParse
  if chunk.all isDigitChar then
    if tzPresent || ((s.drop toParse).dropWhile isDigitChar).isEmpty then
      some (natOfDigits chunk * 10 ^ (6 - toParse))
    else none
  else none

/-- The component loop of CPython's `parse_hh_mm_ss_ff`, with `k`
components still to parse and `hasSep` the separator mode, fixed by the
first character after the hour pair (`none` until that character is
read).  Each iteration parses a two-digit pair; the slice ending right
after the pair is a clean success, and the slice ending right after the
next (always consumed) character succeeds only when a zone designator
follows the slice.  Otherwise `.` or `,` starts the fraction, and the
loop continues on `:` in separated mode or on a digit (pushed back) in
juxtaposed mode.  Once all three components are parsed the remainder is
a fraction — reachable via a third `:` in separated mode or a digit run
after the seconds in juxtaposed mode. -/
def hmsLoop (tzPresent : Bool) : Nat → Option Bool → List Char →
    Option (List Nat × Nat)
  | 0, _, s => (fracParse s tzPresent).map (fun us => ([], us))
  | k + 1, sepMode, s =>
    match parse2 s with
    | none => none
    | some (v, r) =>
      match r with
      | [] => some ([v], 0)
      | c :: r2 =>
        let hasSep := sepMode.getD (c == ':')
        match r2 with
        | [] => if tzPresent then some ([v], 0) else none
        | _ :: _ =>
          if c == '.' || c == ',' then
            (fracParse r2 tzPresent).map (fun us => ([v], us))
          else if hasSep then
            if c == ':' then
              (hmsLoop tzPresent k (some hasSep) r2).map (fun p => (v :: p.1, p.2))
            else none
          else
            if isDigitChar c then
              (hmsLoop tzPresent k (some hasSep) (c :: r2)).map (fun p => (v :: p.1, p.2))
            else none

/-- CPython's `parse_hh_mm_ss_ff` on a time slice: hour, minute and
second (components not reached are zero) plus microseconds.  Component
range checks happen later (or, for a zone offset, not at all). -/
def parse_hh_mm_ss_ff (s : List Char) (tzPresent : Bool) :
    Option ((Nat × Nat × Nat) × Nat) :=
  match hmsLoop tzPresent 3 none s with
  | some ([h], us) => some ((h, 0, 0), us)
  | some ([h, m], us) => some ((h, m, 0), us)
  | some ([h, m, sec], us) => some ((h, m, sec), us)
  | _ => none

/-- CPython's `parse_isoformat_time`: the slice before the first zone
designator is the wall time; an upper-case `Z` must be final and means
UTC; a sign starts an offset parsed end-terminated with the same
component grammar, accepted when its whole-second magnitude is below 24
hours (the offset's own components are not range checked, and its
sub-second fraction is parsed but discarded). -/
def parse_isoformat_time (t : List Char) :
    Option ((Nat × Nat × Nat) × Nat × Option Int) :=
  match splitAtTz t with
  | (s, none) => (parse_hh_mm_ss_ff s false).map (fun p => (p.1, p.2, none))
  | (s, some (tzc, rest)) =>
    match parse_hh_mm_ss_ff s true with
    | none => none
    | some (comps, us) =>
      if tzc == 'Z' then
        if rest.isEmpty then some (comps, us, some 0) else none
      else
        match parse_hh_mm_ss_ff rest false with
        | none => none
        | some (ocomps, _ous) =>
          let mag : Int := ocomps.1 * 3600 + ocomps.2.1 * 60 + ocomps.2.2
          if mag ≥ 86400 then none
          else some (comps, us, some (if tzc == '-' then -mag else mag))

/-- CPython's `find_isoformat_datetime_separator`: the position of the
date/time separator, fixed by the shape of the date part alone.
Characters 4 and 5 pick the format family; the week forms disambiguate
the optional weekday digit by inspecting the characters right after it
and, when both candidate positions hold digits in the compact form, the
parity of the digit run starting at the weekday position. -/
def find_isoformat_datetime_separator (cs : List Char) : Nat :=
  if cs.length < 6 then 8
  else if cs.getD 4 ' ' == '-' then
    if cs.getD 5 ' ' == 'W' then
      if 10 ≤ cs.length && cs.getD 8 ' ' == '-' && isDigitChar (cs.getD 9 ' ') &&
          (cs.length == 10 || !isDigitChar (cs.getD 10 ' ')) then 10
      else 8
    else 10
  else if cs.getD 4 ' ' == 'W' then
    if 8 ≤ cs.length && isDigitChar (cs.getD 7 ' ') then
      if cs.length == 8 || !isDigitChar (cs.getD 8 ' ') then 8
      else if ((cs.drop 7).takeWhile isDigitChar).length % 2 == 0 then 8
      else 7
    else 7
  else 8

/-- Day count (relative to 1970-01-01) of January 4 of a year — always in
ISO week 1 of that year. -/
def jan4Days (y : Nat) : Int := daysFromCivil y 1 4

/-- ISO weekday with Monday = 0 of a day count (1970-01-01 was a
Thursday). -/
def isoWeekday0 (days : Int) : Int := Int.emod (days + 3) 7

/-- Day count of the Monday starting ISO week 1 of a year. -/
def isoWeek1Monday (y : Nat) : Int := jan4Days y - isoWeekday0 (jan4Days y)

/-- A year has 53 ISO weeks iff January 1 falls on a Thursday, or it is a
leap year whose January 1 falls on a Wednesday. -/
def isLongIsoYear (y : Nat) : Bool :=
  let w := isoWeekday0 (daysFromCivil y 1 1)
  w == 3 || (isLeapYear y && w == 2)

/-- Calendar date of an ISO week date. -/
def isoToYmd (y ww d : Nat) : Nat × Nat × Nat :=
  civilFromDays (isoWeek1Monday y + ((ww : Int) - 1) * 7 + ((d : Int) - 1))

/-- Validate an ISO week date as CPython does (week 53 only in long
years, day 1-7, resulting year within `datetime`'s 1-9999) and convert
it. -/
def isoWeekDate (y ww d : Nat) (rest : List Char) :
    Option ((Nat × Nat × Nat) × List Char) :=
  if 1 ≤ ww && (ww ≤ 52 || (ww == 53 && isLongIsoYear y)) && 1 ≤ d && d ≤ 7 then
    let ymd := isoToYmd y ww d
    if 1 ≤ ymd.1 && ymd.1 ≤ 9999 then some (ymd, rest) else none
  else none

/-- The date part of `fromisoformat`: `YYYY-MM-DD`, `YYYYMMDD`,
`YYYY-Www[-D]` or `YYYYWww[D]` (basic and extended forms never mixed),
with the `datetime` constructor's range checks. -/
def parseIsoDate (cs : List Char) : Option ((Nat × Nat × Nat) × List Char) :=
  match parse4 cs with
  | none => none
  | some (y, r0) =>
    match r0 with
    | '-' :: 'W' :: r =>
      match parse2 r with
      | none => none
      | some (ww, r1) =>
        match r1 with
        | '-' :: r2 =>
          match r2 with
          | c :: r3 =>
            match digitVal c with
            | some d => isoWeekDate y ww d r3
            | none => none
          | [] => none
        | _ => isoWeekDate y ww 1 r1
    | 'W' :: r =>
      match parse2 r with
      | none => none
      | some (ww, r1) =>
        match r1 with
        | c :: r3 =>
          match digitVal c with
          | some d => isoWeekDate y ww d r3
          | none => isoWeekDate y ww 1 r1
        | [] => isoWeekDate y ww 1 []
    | '-' :: r =>
      match parse2 r with
      | none => none
      | some (mo, r1) =>
        match expectChar '-' r1 with
        | none => none
        | some r2 =>
          match parse2 r2 with
          | none => none
          | some (d, r3) =>
            if 1 ≤ y && 1 ≤ mo && mo ≤ 12 && 1 ≤ d && d ≤ daysInMonth y mo then
              some ((y, mo, d), r3)
            else none
    | _ =>
      match parse2 r0 with
      | none => none
      | some (mo, r1) =>
        match parse2 r1 with
        | none => none
        | some (d, r2) =>
          if 1 ≤ y && 1 ≤ mo && mo ≤ 12 && 1 ≤ d && d ≤ daysInMonth y mo then
            some ((y, mo, d), r2)
          else none

/-- `datetime.fromisoformat` (CPython 3.11 semantics): the separator
position is fixed first from the shape of the date part, which must then
parse completely as a calendar or ISO-week date, in basic or extended
form, under the `datetime` constructor's range checks; whatever single
character sits at the separator position is accepted as the separator,
and the rest is a time of up to three two-digit components with an
optional fraction and an optional zone designator, under the hour 0-23
and minute/second 0-59 checks.  Returns the naive second-granularity
components, the parsed microseconds, and the zone offset in whole
seconds (`none` when naive) — the repository only ever uses day-level
differences of the result, so sub-second detail is validated but not
carried further. -/
def fromisoformat (s : String) : Option (PyDateTime × Nat × Option Int) :=
  let cs := s.toList
  let sep := find_isoformat_datetime_separator cs
  match parseIsoDate (cs.take sep) with
  | none => none
  | some (ymd, rest) =>
    if rest.isEmpty then
      if cs.length ≤ sep then
        some (⟨ymd.1, ymd.2.1, ymd.2.2, 0, 0, 0, false⟩, 0, none)
      else
        match parse_isoformat_time (cs.drop (sep + 1)) with
        | none => none
        | some (comps, us, off) =>
          if comps.1 ≤ 23 && comps.2.1 ≤ 59 && comps.2.2 ≤ 59 then
            some (⟨ymd.1, ymd.2.1, ymd.2.2, comps.1, comps.2.1, comps.2.2, false⟩, us, off)
          else none
    else none

/-- `expiry_str[:-1] + '+00:00'` when the string ends with `'Z'`. -/
def replaceTrailingZ (s : String) : String :=
  match s.toList.getLast? with
  | some 'Z' => String.mk s.toList.dropLast ++ "+00:00"
  | _ => s

/-- `dt.astimezone(timezone.utc)`: an aware value is shifted by its
offset; Python interprets a naive value in the system's local timezone,
modelled by the explicit `localOffset` parameter (seconds east of
UTC). -/
def pyAstimezoneUtc (dt : PyDateTime) (offset : Option Int) (localOffset : Int) : PyDateTime :=
  dtFromEpoch (epochOfDt dt - (match offset with | some o => o | none => localOffset))

/-- Body of a registrar API HTTP response. -/
inductive GDBody where
  | invalidJson
  | fields (expires : Option String)
deriving DecidableEq

/-- Transport-level outcome of the registrar API request. -/
inductive GDHttp where
  | timedOut
  | requestError
  | resp (status : Nat) (body : GDBody)
deriving DecidableEq

/-- Log severities used by `logger.py`. -/
inductive LogLevel where
  | debug
  | info
  | warn
  | error
deriving DecidableEq

/-- Branch classification of `_get_expiry_from_godaddy`. -/
inductive GDOutcome where
  | skippedNoCreds
  | notFound
  | authFailure
  | rateLimited
  | httpError
  | invalidJson
  | missingExpires
  | malformedExpires
  | ok
  | timedOut
  | requestError
deriving DecidableEq

/-- `_get_expiry_from_godaddy` from `services.py` as a pure function of
the configured credentials, the environment's local UTC offset and the
HTTP outcome: the returned expiry date (`None` on every failure) paired
with the branch taken. -/
def _get_expiry_from_godaddy (apiKey apiSecret : Option String) (localOffset : Int)
    (http : GDHttp) : Option PyDateTime × GDOutcome :=
  if !(pyTruthy apiKey) || !(pyTruthy apiSecret) then (none, GDOutcome.skippedNoCreds)
  else
    match http with
    | GDHttp.timedOut => (none, GDOutcome.timedOut)
    | GDHttp.requestError => (none, GDOutcome.requestError)
    | GDHttp.resp status body =>
      if status == 404 then (none, GDOutcome.notFound)
      else if status == 401 || status == 403 then (none, GDOutcome.authFailure)
      else if status == 429 then (none, GDOutcome.rateLimited)
      else if 400 ≤ status then (none, GDOutcome.httpError)
      else
        match body with
        | GDBody.invalidJson => (none, GDOutcome.invalidJson)
        | GDBody.fields expires =>
          match expires with
          | none => (none, GDOutcome.missingExpires)
          | some s =>
            if s == "" then (none, GDOutcome.missingExpires)
            else
              match fromisoformat (replaceTrailingZ s) with
              | none => (none, GDOutcome.malformedExpires)
              | some (dt, _us, off) =>
                (some (pyAstimezoneUtc dt off localOffset), GDOutcome.ok)

/-- The log severity each branch of `_get_expiry_from_godaddy` emits
(`debug`/`info`/`warn`/`error` calls in the corresponding source
branch; the success branch only logs at debug level). -/
def gdLogLevel : GDOutcome → LogLevel
  | GDOutcome.skippedNoCreds => LogLevel.debug
  | GDOutcome.notFound => LogLevel.info
  | GDOutcome.authFailure => LogLevel.error
  | GDOutcome.rateLimited => LogLevel.warn
  | GDOutcome.httpError => LogLevel.error
  | GDOutcome.invalidJson => LogLevel.error
  | GDOutcome.missingExpires => LogLevel.warn
  | GDOutcome.malformedExpires => LogLevel.error
  | GDOutcome.ok => LogLevel.debug
  | GDOutcome.timedOut => LogLevel.error
  | GDOutcome.requestError => LogLevel.error

/-! ## WHOIS expiry date extractor (services.py, lines 78-170) -/

/-- `[A-Za-z]` of the second WHOIS pattern's capture group. -/
def isAlphaChar (c : Char) : Bool := c.isAlpha

/-- Case-insensitive character equality (`re.IGNORECASE`, and
`strptime`'s case-insensitive compiled format regex). -/
def charCI (a b : Char) : Bool := a.toLower == b.toLower

/-- Match a literal (the pattern's label text) case-insensitively at the
head of the input, returning the rest. -/
def matchLitCI : List Char → List Char → Option (List Char)
  | [], cs => some cs
  | _ :: _, [] => none
  | p :: ps, c :: cs => if charCI p c then matchLitCI ps cs else none

/-- `str.strip()` on a list of characters. -/
def pyStripChars (cs : List Char) : List Char :=
  ((cs.dropWhile isSpaceChar).reverse.dropWhile isSpaceChar).reverse

/-- The three capture-group shapes of the WHOIS patterns:
`(\\d{4}-\\d{2}-\\d{2}T\\d{2}:\\d{2}:\\d{2}Z)`,
`(\\d{1,2}-[A-Za-z]{3}-\\d{4})` and `(\\S+)`. -/
inductive CaptureKind where
  | isoZ
  | dMonY
  | nonSpace
deriving DecidableEq

/-- The ISO-with-Z capture: exactly `\\d{4}-\\d{2}-\\d{2}T\\d{2}:\\d{2}:\\d{2}Z`
at the head (`T` and `Z` case-insensitively, under `re.IGNORECASE`). -/
def matchIsoZCapture : List Char → Option (List Char)
  | y1 :: y2 :: y3 :: y4 :: s1 :: mo1 :: mo2 :: s2 :: d1 :: d2 :: t ::
      h1 :: h2 :: c1 :: mi1 :: mi2 :: c2 :: se1 :: se2 :: z :: _ =>
    if isDigitChar y1 && isDigitChar y2 && isDigitChar y3 && isDigitChar y4 &&
        s1 == '-' && isDigitChar mo1 && isDigitChar mo2 && s2 == '-' &&
        isDigitChar d1 && isDigitChar d2 && charCI t 'T' &&
        isDigitChar h1 && isDigitChar h2 && c1 == ':' &&
        isDigitChar mi1 && isDigitChar mi2 && c2 == ':' &&
        isDigitChar se1 && isDigitChar se2 && charCI z 'Z' then
      some [y1, y2, y3, y4, s1, mo1, mo2, s2, d1, d2, t,
            h1, h2, c1, mi1, mi2, c2, se1, se2, z]
    else none
  | _ => none

/-- The `\\d{1,2}-[A-Za-z]{3}-\\d{4}` capture with two digits (the greedy
first alternative of `\\d{1,2}`). -/
def matchDMonY2 : List Char → Option (List Char)
  | a :: b :: s1 :: l1 :: l2 :: l3 :: s2 :: y1 :: y2 :: y3 :: y4 :: _ =>
    if isDigitChar a && isDigitChar b && s1 == '-' &&
        isAlphaChar l1 && isAlphaChar l2 && isAlphaChar l3 && s2 == '-' &&
        isDigitChar y1 && isDigitChar y2 && isDigitChar y3 && isDigitChar y4 then
      some [a, b, s1, l1, l2, l3, s2, y1, y2, y3, y4]
    else none
  | _ => none

/-- The `\\d{1,2}-[A-Za-z]{3}-\\d{4}` capture with one digit (the
backtracked alternative). -/
def matchDMonY1 : List Char → Option (List Char)
  | a :: s1 :: l1 :: l2 :: l3 :: s2 :: y1 :: y2 :: y3 :: y4 :: _ =>
    if isDigitChar a && s1 == '-' &&
        isAlphaChar l1 && isAlphaChar l2 && isAlphaChar l3 && s2 == '-' &&
        isDigitChar y1 && isDigitChar y2 && isDigitChar y3 && isDigitChar y4 then
      some [a, s1, l1, l2, l3, s2, y1, y2, y3, y4]
    else none
  | _ => none

/-- The `\\d{1,2}-...` capture: two digits greedily, then one. -/
def matchDMonYCapture (cs : List Char) : Option (List Char) :=
  match matchDMonY2 cs with
  | some r => some r
  | none => matchDMonY1 cs

/-- The `(\\S+)` capture: a maximal non-empty run of non-whitespace. -/
def matchNonSpaceCapture (cs : List Char) : Option (List Char) :=
  let w := cs.takeWhile (fun c => !(isSpaceChar c))
  if w.isEmpty then none else some w

/-- Dispatch on the capture shape. -/
def matchCapture : CaptureKind → List Char → Option (List Char)
  | CaptureKind.isoZ => matchIsoZCapture
  | CaptureKind.dMonY => matchDMonYCapture
  | CaptureKind.nonSpace => matchNonSpaceCapture

/-- Try a whole pattern at one position: one of the label alternatives
(case-insensitively, in alternation order), then `:`, then `\\s*`
(greedy — exact here, since no capture may start with whitespace), then
the capture group.  Returns the captured text. -/
def matchPatternAt (labels : List String) (k : CaptureKind) (cs : List Char) :
    Option (List Char) :=
  labels.findSome? (fun lab =>
    match matchLitCI lab.toList cs with
    | none => none
    | some r1 =>
      match r1 with
      | ':' :: r2 => matchCapture k (r2.dropWhile isSpaceChar)
      | _ => none)

/-- `re.search`: try the pattern at every position left to right (the
position after the last character included) and return the first match's
captured group. -/
def reSearch (labels : List String) (k : CaptureKind) : List Char → Option (List Char)
  | [] => matchPatternAt labels k []
  | c :: t =>
    match matchPatternAt labels k (c :: t) with
    | some cap => some cap
    | none => reSearch labels k t

/-- The `patterns` list of `_parse_expiry_from_whois`: label alternatives
and capture shape of each of the three regexes, in order. -/
def whoisPatterns : List (List String × CaptureKind) :=
  [(["Registry Expiry Date", "Expiration Date", "Expiry Date", "paid-till"],
    CaptureKind.isoZ),
   (["expires", "Expiry Date"], CaptureKind.dMonY),
   (["Registry Expiry Date", "Expiration Date", "Expiry Date", "paid-till",
     "Expiration Time"], CaptureKind.nonSpace)]

/-- One `strptime` directive (or literal character) of the formats in
`formats_to_try`. -/
inductive FmtItem where
  | Y
  | m
  | d
  | b
  | B
  | H
  | M
  | S
  | lit (c : Char)
deriving DecidableEq

/-- `formats_to_try` from `_parse_expiry_from_whois` (the boolean second
components are unused by the source; the `%Y-%m-%d` duplicate is kept). -/
def formats_to_try : List (List FmtItem) :=
  [[FmtItem.Y, FmtItem.lit '-', FmtItem.m, FmtItem.lit '-', FmtItem.d, FmtItem.lit 'T',
    FmtItem.H, FmtItem.lit ':', FmtItem.M, FmtItem.lit ':', FmtItem.S, FmtItem.lit 'Z'],
   [FmtItem.Y, FmtItem.lit '.', FmtItem.m, FmtItem.lit '.', FmtItem.d],
   [FmtItem.Y, FmtItem.lit '-', FmtItem.m, FmtItem.lit '-', FmtItem.d],
   [FmtItem.Y, FmtItem.lit '-', FmtItem.m, FmtItem.lit '-', FmtItem.d],
   [FmtItem.Y, FmtItem.lit '/', FmtItem.m, FmtItem.lit '/', FmtItem.d],
   [FmtItem.d, FmtItem.lit '/', FmtItem.m, FmtItem.lit '/', FmtItem.Y],
   [FmtItem.d, FmtItem.lit '-', FmtItem.m, FmtItem.lit '-', FmtItem.Y],
   [FmtItem.d, FmtItem.lit '-', FmtItem.b, FmtItem.lit '-', FmtItem.Y],
   [FmtItem.d, FmtItem.lit ' ', FmtItem.b, FmtItem.lit ' ', FmtItem.Y],
   [FmtItem.d, FmtItem.lit ' ', FmtItem.B, FmtItem.lit ' ', FmtItem.Y],
   [FmtItem.Y, FmtItem.m, FmtItem.d],
   [FmtItem.Y, FmtItem.lit '.', FmtItem.m, FmtItem.lit '.', FmtItem.d, FmtItem.lit ' ',
    FmtItem.H, FmtItem.lit ':', FmtItem.M, FmtItem.lit ':', FmtItem.S],
   [FmtItem.Y, FmtItem.lit '-', FmtItem.m, FmtItem.lit '-', FmtItem.d, FmtItem.lit ' ',
    FmtItem.H, FmtItem.lit ':', FmtItem.M, FmtItem.lit ':', FmtItem.S]]

/-- English month abbreviations for `%b` (C locale), lowercase. -/
def monthAbbrs : List String :=
  ["jan", "feb", "mar", "apr", "may", "jun", "jul", "aug", "sep", "oct", "nov", "dec"]

/-- English full month names for `%B` (C locale), lowercase. -/
def monthNames : List String :=
  ["january", "february", "march", "april", "may", "june", "july", "august",
   "september", "october", "november", "december"]

/-- Month-name candidates (case-insensitive prefix match), value is the
month number. -/
def monthAlts (names : List String) (cs : List Char) : List (Nat × List Char) :=
  names.enum.foldr
    (fun ni acc =>
      match matchLitCI ni.2.toList cs with
      | some rest => (ni.1 + 1, rest) :: acc
      | none => acc)
    []

/-- The candidate `(value, rest)` parses of one `strptime` directive, in
the alternation order of CPython's compiled directive regexes
(`%Y` → `\\d\\d\\d\\d`; `%m` → `1[0-2]|0[1-9]|[1-9]`;
`%d` → `3[01]|[12]\\d|0[1-9]|[1-9]`; `%H` → `2[0-3]|[0-1]\\d|\\d`;
`%M` → `[0-5]\\d|\\d`; `%S` → `6[01]|[0-5]\\d|\\d`; literals and month
names case-insensitively). -/
def altsFor : FmtItem → List Char → List (Nat × List Char)
  | FmtItem.Y, a :: b :: c :: d :: rest =>
    match digitVal a, digitVal b, digitVal c, digitVal d with
    | some w, some x, some y, some z => [(1000 * w + 100 * x + 10 * y + z, rest)]
    | _, _, _, _ => []
  | FmtItem.Y, _ => []
  | FmtItem.m, cs =>
    (match cs with
     | a :: b :: rest =>
       match digitVal a, digitVal b with
       | some x, some y =>
         if x = 1 && y ≤ 2 then [(10 * x + y, rest)]
         else if x = 0 && 1 ≤ y then [(10 * x + y, rest)]
         else []
       | _, _ => []
     | _ => []) ++
    (match cs with
     | a :: rest =>
       match digitVal a with
       | some x => if 1 ≤ x then [(x, rest)] else []
       | none => []
     | _ => [])
  | FmtItem.d, cs =>
    (match cs with
     | a :: b :: rest =>
       match digitVal a, digitVal b with
       | some x, some y =>
         if x = 3 && y ≤ 1 then [(10 * x + y, rest)]
         else if 1 ≤ x && x ≤ 2 then [(10 * x + y, rest)]
         else if x = 0 && 1 ≤ y then [(10 * x + y, rest)]
         else []
       | _, _ => []
     | _ => []) ++
    (match cs with
     | a :: rest =>
       match digitVal a with
       | some x => if 1 ≤ x then [(x, rest)] else []
       | none => []
     | _ => [])
  | FmtItem.H, cs =>
    (match cs with
     | a :: b :: rest =>
       match digitVal a, digitVal b with
       | some x, some y =>
         if x = 2 && y ≤ 3 then [(10 * x + y, rest)]
         else if x ≤ 1 then [(10 * x + y, rest)]
         else []
       | _, _ => []
     | _ => []) ++
    (match cs with
     | a :: rest =>
       match digitVal a with
       | some x => [(x, rest)]
       | none => []
     | _ => [])
  | FmtItem.M, cs =>
    (match cs with
     | a :: b :: rest =>
       match digitVal a, digitVal b with
       | some x, some y => if x ≤ 5 then [(10 * x + y, rest)] else []
       | _, _ => []
     | _ => []) ++
    (match cs with
     | a :: rest =>
       match digitVal a with
       | some x => [(x, rest)]
       | none => []
     | _ => [])
  | FmtItem.S, cs =>
    (match cs with
     | a :: b :: rest =>
       match digitVal a, digitVal b with
       | some x, some y =>
         if x = 6 && y ≤ 1 then [(10 * x + y, rest)]
         else if x ≤ 5 then [(10 * x + y, rest)]
         else []
       | _, _ => []
     | _ => []) ++
    (match cs with
     | a :: rest =>
       match digitVal a with
       | some x => [(x, rest)]
       | none => []
     | _ => [])
  | FmtItem.b, cs => monthAlts monthAbbrs cs
  | FmtItem.B, cs => monthAlts monthNames cs
  | FmtItem.lit c, x :: rest => if charCI x c then [(0, rest)] else []
  | FmtItem.lit _, [] => []

/-- Record one parsed directive value into the accumulating datetime. -/
def applyField (acc : PyDateTime) : FmtItem → Nat → PyDateTime
  | FmtItem.Y, v => { acc with year := v }
  | FmtItem.m, v => { acc with month := v }
  | FmtItem.d, v => { acc with day := v }
  | FmtItem.b, v => { acc with month := v }
  | FmtItem.B, v => { acc with month := v }
  | FmtItem.H, v => { acc with hour := v }
  | FmtItem.M, v => { acc with minute := v }
  | FmtItem.S, v => { acc with second := v }
  | FmtItem.lit _, _ => acc

/-- Backtracking match of a whole format against the whole string
(`strptime` requires the entire input to be consumed). -/
def parseFmt : List FmtItem → List Char → PyDateTime → Option PyDateTime
  | [], cs, acc => if cs.isEmpty then some acc else none
  | it :: rest, cs, acc =>
    (altsFor it cs).findSome? (fun vc => parseFmt rest vc.2 (applyField acc it vc.1))

/-- `strptime` defaults: year 1900, month 1, day 1, midnight, naive. -/
def strptimeDefaults : PyDateTime := ⟨1900, 1, 1, 0, 0, 0, false⟩

/-- The `datetime` constructor validation `strptime` ends with (rejecting
e.g. day 31 in a 30-day month, or the leap-second values the `%S` regex
admits). -/
def mkDatetimeValid (dt : PyDateTime) : Option PyDateTime :=
  if 1 ≤ dt.year && 1 ≤ dt.month && dt.month ≤ 12 && 1 ≤ dt.day &&
      dt.day ≤ daysInMonth dt.year dt.month && dt.hour ≤ 23 &&
      dt.minute ≤ 59 && dt.second ≤ 59 then
    some dt
  else none

/-- `datetime.datetime.strptime(date_str, fmt)`, returning a naive value
or `none` for the `ValueError` the source catches. -/
def strptime? (fmt : List FmtItem) (cs : List Char) : Option PyDateTime :=
  match parseFmt fmt cs strptimeDefaults with
  | none => none
  | some dt => mkDatetimeValid dt

/-- `dt_naive.replace(tzinfo=datetime.timezone.utc)`. -/
def pyReplaceTzUtc (dt : PyDateTime) : PyDateTime := { dt with tzUtc := true }

/-- The `for fmt, _ in formats_to_try` loop: first format that parses
wins, and the parsed naive value is stamped UTC. -/
def tryFormats : List (List FmtItem) → List Char → Option PyDateTime
  | [], _ => none
  | f :: fs, cs =>
    match strptime? f cs with
    | some dt => some (pyReplaceTzUtc dt)
    | none => tryFormats fs cs

/-- The UNIX-timestamp special case:
`date_str.isdigit() and len(date_str) in (10, 13)` then
`datetime.datetime.fromtimestamp(int(date_str[:10]), tz=timezone.utc)`
(a 10-digit value is at most 9999999999, within `fromtimestamp` range,
so no `ValueError`/`OSError` arises). -/
def tryUnixTimestamp (cs : List Char) : Option PyDateTime :=
  if cs.all isDigitChar && (cs.length == 10 || cs.length == 13) then
    some (dtFromEpoch ((natOfDigits (cs.take 10) : Nat) : Int))
  else none

/-- The per-capture parsing of `_parse_expiry_from_whois`: empty captured
value → continue; UNIX timestamp first; then the string formats. -/
def parseDateString (dateStr : List Char) : Option PyDateTime :=
  if dateStr.isEmpty then none
  else
    match tryUnixTimestamp dateStr with
    | some dt => some dt
    | none => tryFormats formats_to_try dateStr

/-- The `for pattern in patterns` loop of `_parse_expiry_from_whois`:
search with the pattern; on no match, next pattern; on a match whose
stripped captured value does not parse, also next pattern (the same
pattern is never retried elsewhere in the text); first parsed date
wins. -/
def parseLoop : List (List String × CaptureKind) → List Char → Option PyDateTime
  | [], _ => none
  | p :: ps, cs =>
    match reSearch p.1 p.2 cs with
    | none => parseLoop ps cs
    | some cap =>
      match parseDateString (pyStripChars cap) with
      | some dt => some dt
      | none => parseLoop ps cs

/-- `_parse_expiry_from_whois` from `services.py`: `None` for falsy input,
otherwise the pattern loop over the text. -/
def _parse_expiry_from_whois (whoisOutput : String) : Option PyDateTime :=
  if whoisOutput == "" then none
  else parseLoop whoisPatterns whoisOutput.toList

/-! ## Order lemmas for the modelled Python string comparison -/

theorem charListLt_asymm : ∀ as bs, charListLt as bs = true → charListLt bs as = false
  | _, [], h => by simp [charListLt] at h
  | [], _ :: _, _ => by simp [charListLt]
  | a :: as, b :: bs, h => by
    by_cases hab : a = b
    · subst hab
      simp only [charListLt, if_pos rfl] at h ⊢
      exact charListLt_asymm as bs h
    · simp only [charListLt, if_neg hab, decide_eq_true_eq] at h
      simp only [charListLt, if_neg (Ne.symm hab), decide_eq_false_iff_not]
      exact not_lt_of_lt h

theorem charListLt_trans :
    ∀ as bs cs, charListLt as bs = true → charListLt bs cs = true → charListLt as cs = true
  | _, _, [], _, h2 => by simp [charListLt] at h2
  | _, [], _ :: _, h1, _ => by simp [charListLt] at h1
  | [], _ :: _, _ :: _, _, _ => by simp [charListLt]
  | a :: as, b :: bs, c :: cs, h1, h2 => by
    by_cases hab : a = b
    · subst hab
      simp only [charListLt, if_pos rfl] at h1
      by_cases hbc : a = c
      · subst hbc
        simp only [charListLt, if_pos rfl] at h2 ⊢
        exact charListLt_trans as bs cs h1 h2
      · simp only [charListLt, if_neg hbc] at h2 ⊢
        exact h2
    · simp only [charListLt, if_neg hab, decide_eq_true_eq] at h1
      by_cases hbc : b = c
      · subst hbc
        simp only [charListLt, if_neg hab, decide_eq_true_eq]
        exact h1
      · simp only [charListLt, if_neg hbc, decide_eq_true_eq] at h2
        have hac : a < c := lt_trans h1 h2
        simp only [charListLt, if_neg (ne_of_lt hac), decide_eq_true_eq]
        exact hac

theorem charListLt_connex :
    ∀ as bs, as ≠ bs → charListLt as bs = true ∨ charListLt bs as = true
  | [], [], h => absurd rfl h
  | [], _ :: _, _ => Or.inl (by simp [charListLt])
  | _ :: _, [], _ => Or.inr (by simp [charListLt])
  | a :: as, b :: bs, h => by
    by_cases hab : a = b
    · subst hab
      have hne : as ≠ bs := fun he => h (by rw [he])
      rcases charListLt_connex as bs hne with h1 | h1
      · exact Or.inl (by simpa [charListLt] using h1)
      · exact Or.inr (by simpa [charListLt] using h1)
    · rcases lt_or_gt_of_ne (show a ≠ b from hab) with hlt | hgt
      · exact Or.inl (by simp [charListLt, if_neg hab, hlt])
      · exact Or.inr (by simp [charListLt, if_neg (Ne.symm hab), hgt])

theorem pyStrLt_asymm {a b : String} (h : pyStrLt a b = true) : pyStrLt b a = false :=
  charListLt_asymm _ _ h

theorem pyStrLe_total (a b : String) : pyStrLe a b = true ∨ pyStrLe b a = true := by
  cases h : pyStrLt b a
  · exact Or.inl (by show (!pyStrLt b a) = true; rw [h]; rfl)
  · exact Or.inr (by show (!pyStrLt a b) = true; rw [pyStrLt_asymm h]; rfl)

theorem pyStrLe_trans {a b c : String} (h1 : pyStrLe a b = true) (h2 : pyStrLe b c = true) :
    pyStrLe a c = true := by
  show (!pyStrLt c a) = true
  cases hca : pyStrLt c a
  · rfl
  · exfalso
    have hba : pyStrLt b a = false := by
      cases hb : pyStrLt b a
      · rfl
      · rw [show pyStrLe a b = !pyStrLt b a from rfl, hb] at h1
        exact absurd h1 (by simp)
    have hcb : pyStrLt c b = false := by
      cases hb : pyStrLt c b
      · rfl
      · rw [show pyStrLe b c = !pyStrLt c b from rfl, hb] at h2
        exact absurd h2 (by simp)
    by_cases hbc : b.toList = c.toList
    · have hca' : charListLt b.toList a.toList = true := by
        rw [hbc]; exact hca
      rw [show pyStrLt b a = charListLt b.toList a.toList from rfl] at hba
      rw [hca'] at hba
      simp at hba
    · rcases charListLt_connex _ _ hbc with hx | hx
      · have hlt : charListLt b.toList a.toList = true := charListLt_trans _ _ _ hx hca
        rw [show pyStrLt b a = charListLt b.toList a.toList from rfl, hlt] at hba
        simp at hba
      · rw [show pyStrLt c b = charListLt c.toList b.toList from rfl, hx] at hcb
        simp at hcb

/-- The sorting relation as a proposition. -/
def PyLe (a b : String) : Prop := pyStrLe a b = true

theorem insertTag_perm (x : String) : ∀ l : List String, (insertTag x l).Perm (x :: l)
  | [] => List.Perm.refl _
  | y :: ys => by
    unfold insertTag
    by_cases h : pyStrLe x y = true
    · rw [if_pos h]
    · rw [if_neg h]
      exact List.Perm.trans (List.Perm.cons y (insertTag_perm x ys)) (List.Perm.swap x y ys)

theorem sortStrings_perm (l : List String) : (sortStrings l).Perm l := by
  induction l with
  | nil => exact List.Perm.refl _
  | cons x xs ih =>
    exact List.Perm.trans (insertTag_perm x (sortStrings xs)) (List.Perm.cons x ih)

theorem mem_sortStrings {a : String} {l : List String} : a ∈ sortStrings l ↔ a ∈ l :=
  (sortStrings_perm l).mem_iff

theorem insertTag_sorted {x : String} {l : List String}
    (h : List.Sorted PyLe l) : List.Sorted PyLe (insertTag x l) := by
  induction l with
  | nil => simp [insertTag, List.Sorted]
  | cons y ys ih =>
    unfold insertTag
    by_cases hxy : pyStrLe x y = true
    · rw [if_pos hxy]
      refine List.Pairwise.cons ?_ h
      intro z hz
      rcases List.mem_cons.mp hz with rfl | hz
      · exact hxy
      · exact pyStrLe_trans hxy (List.rel_of_sorted_cons h z hz)
    · rw [if_neg hxy]
      have hys : List.Sorted PyLe ys := h.of_cons
      refine List.Pairwise.cons ?_ (ih hys)
      intro z hz
      have hz' : z = x ∨ z ∈ ys := by
        have := (insertTag_perm x ys).mem_iff.mp hz
        simpa using this
      rcases hz' with rfl | hz'
      · rcases pyStrLe_total y z with h' | h'
        · exact h'
        · exact absurd h' hxy
      · exact List.rel_of_sorted_cons h z hz'

theorem sortStrings_sorted (l : List String) : List.Sorted PyLe (sortStrings l) := by
  induction l with
  | nil => simp [sortStrings, List.Sorted]
  | cons x xs ih => exact insertTag_sorted ih

/-! ## Helper lemmas about the reconciler and classifier -/

theorem reconcileTags_some_eq {cur : List String} {d : String} {nt : List String}
    (h : reconcileTags cur d = some nt) :
    nt = cur.filter (fun t => !(MANAGED_EXPIRY_TAGS.contains t)) ++ [d] ∧ d ∉ cur := by
  unfold reconcileTags at h
  by_cases hmem : d ∈ cur
  · rw [if_pos hmem] at h
    exact absurd h (by simp)
  · rw [if_neg hmem] at h
    exact ⟨(Option.some.inj h).symm, hmem⟩

theorem classifyDaysLeft_eq (d : Int) :
    classifyDaysLeft d =
      if d ≤ 0 then "expired"
      else if d ≤ 7 then "expires_in_<7d"
      else if d ≤ 30 then "expires_in_<30d"
      else if d ≤ 60 then "expires_in_<60d"
      else if d ≤ 90 then "expires_in_<90d"
      else OK_TAG := by
  unfold classifyDaysLeft EXPIRY_LEVELS
  by_cases h0 : d ≤ 0 <;> by_cases h7 : d ≤ 7 <;> by_cases h30 : d ≤ 30 <;>
    by_cases h60 : d ≤ 60 <;> by_cases h90 : d ≤ 90 <;>
    simp [List.find?, h0, h7, h30, h60, h90]

/-- C1: for every fetched current tag set and desired managed tag, the tag
reconciler computes the transmitted tag set as the current tags minus the
full set of known managed expiry tags, plus the desired tag, sorted
before transmission; tags outside the managed vocabulary are never
removed; for current tags `{vip, expiry_ok}` and desired tag
`expires_in_<30d` the result is exactly `{vip, expires_in_<30d}`. -/
theorem tag_reconciler_replaces_managed_preserves_foreign :
    (∀ cur d nt, reconcileTags cur d = some nt →
      nt = cur.filter (fun t => !(MANAGED_EXPIRY_TAGS.contains t)) ++ [d] ∧
      (∀ t, t ∈ cur → t ∉ MANAGED_EXPIRY_TAGS → t ∈ nt) ∧
      d ∈ nt ∧
      (tagsAfterUpdate nt).Perm nt ∧
      List.Sorted PyLe (tagsAfterUpdate nt)) ∧
    reconcileTags ["vip", "expiry_ok"] "expires_in_<30d" =
      some ["vip", "expires_in_<30d"] ∧
    update_check_tags_payload ["vip", "expires_in_<30d"] = "expires_in_<30d vip" := by
  refine ⟨?_, by decide, by decide⟩
  intro cur d nt h
  obtain ⟨hnt, -⟩ := reconcileTags_some_eq h
  subst hnt
  refine ⟨rfl, ?_, ?_, sortStrings_perm _, sortStrings_sorted _⟩
  · intro t htc htm
    apply List.mem_append_left
    rw [List.mem_filter]
    refine ⟨htc, ?_⟩
    simp [htm]
  · exact List.mem_append_right _ (by simp)

theorem tag_reconciler_replaces_managed_preserves_foreign_witness :
    "vip" ∈ (["vip", "expires_in_<30d"] : List String) :=
  (tag_reconciler_replaces_managed_preserves_foreign.1
      ["vip", "expiry_ok"] "expires_in_<30d" ["vip", "expires_in_<30d"]
      (by decide)).2.1 "vip" (by decide) (by decide)

/-- C4: if the desired managed tag is already present in the current tag
set, no remote tag-update call is made (`none`); and after an update call
transmitted the sorted new tag list, a second run with the same desired
tag makes no call — at most one update across two runs. -/
theorem tag_reconciler_idempotent :
    (∀ cur d, d ∈ cur → reconcileTags cur d = none) ∧
    (∀ cur d nt, reconcileTags cur d = some nt →
      reconcileTags (tagsAfterUpdate nt) d = none) := by
  constructor
  · intro cur d h
    unfold reconcileTags
    rw [if_pos h]
  · intro cur d nt h
    obtain ⟨hnt, -⟩ := reconcileTags_some_eq h
    have hd : d ∈ nt := by
      rw [hnt]; exact List.mem_append_right _ (by simp)
    have hd' : d ∈ tagsAfterUpdate nt := mem_sortStrings.mpr hd
    unfold reconcileTags
    rw [if_pos hd']

theorem tag_reconciler_idempotent_witness :
    reconcileTags (tagsAfterUpdate ["expired"]) "expired" = none :=
  tag_reconciler_idempotent.2 [] "expired" ["expired"] (by decide)

/-- C2: the classifier assigns the tier of the first threshold in
ascending order `{0, 7, 30, 60, 90}` for which `daysLeft <= threshold`
(`expired` at ≤0, then `<7d`, `<30d`, `<60d`, `<90d`), and `ok` when it
exceeds all thresholds; in particular 0 → expired, 7 → <7d, 8 → <30d,
30 → <30d, 31 → <60d, 91 → ok, -5 → expired; no resolved timestamp →
`lookup_failed`. -/
theorem expiry_classifier_thresholds :
    (∀ d : Int, d ≤ 0 → classifyDaysLeft d = "expired") ∧
    (∀ d : Int, 0 < d → d ≤ 7 → classifyDaysLeft d = "expires_in_<7d") ∧
    (∀ d : Int, 7 < d → d ≤ 30 → classifyDaysLeft d = "expires_in_<30d") ∧
    (∀ d : Int, 30 < d → d ≤ 60 → classifyDaysLeft d = "expires_in_<60d") ∧
    (∀ d : Int, 60 < d → d ≤ 90 → classifyDaysLeft d = "expires_in_<90d") ∧
    (∀ d : Int, 90 < d → classifyDaysLeft d = OK_TAG) ∧
    classifyDaysLeft 0 = "expired" ∧
    classifyDaysLeft 7 = "expires_in_<7d" ∧
    classifyDaysLeft 8 = "expires_in_<30d" ∧
    classifyDaysLeft 30 = "expires_in_<30d" ∧
    classifyDaysLeft 31 = "expires_in_<60d" ∧
    classifyDaysLeft 91 = OK_TAG ∧
    classifyDaysLeft (-5) = "expired" ∧
    desired_tag_for none = LOOKUP_FAILED_TAG := by
  refine ⟨?_, ?_, ?_, ?_, ?_, ?_, by decide, by decide, by decide, by decide,
    by decide, by decide, by decide, rfl⟩ <;>
    (intro d; intros; rw [classifyDaysLeft_eq]; split_ifs <;> first | rfl | omega)

theorem expiry_classifier_thresholds_witness :
    classifyDaysLeft 45 = "expires_in_<60d" :=
  expiry_classifier_thresholds.2.2.2.1 45 (by decide) (by decide)

/-- C5: `is_marker_valid` returns true iff a marker exists and its age is
strictly under the 23-hour window (a marker one second short of the
window is still valid; a freshly created marker is valid immediately);
a marker whose age has reached or exceeded the window is deleted
(state becomes `none`) and false is returned. -/
theorem marker_cache_freshness :
    (∀ now st, (is_marker_valid now st 23).1 = true ↔
      ∃ m, st = some m ∧ now - m < 23 * 3600) ∧
    (∀ now m, 23 * 3600 ≤ now - m → is_marker_valid now (some m) 23 = (false, none)) ∧
    (∀ now, is_marker_valid now (some now) 23 = (true, some now)) ∧
    (∀ now m, now - m = 23 * 3600 - 1 → (is_marker_valid now (some m) 23).1 = true) ∧
    (∀ now, is_marker_valid now none 23 = (false, none)) := by
  refine ⟨?_, ?_, ?_, ?_, fun now => rfl⟩
  · intro now st
    match st with
    | none => simp [is_marker_valid]
    | some m =>
      simp only [is_marker_valid]
      by_cases h : now - m < 23 * 3600
      · rw [if_pos h]
        simp
        omega
      · rw [if_neg h]
        simp
        omega
  · intro now m h
    simp only [is_marker_valid]
    rw [if_neg (by omega)]
  · intro now
    simp only [is_marker_valid]
    rw [if_pos (by omega)]
  · intro now m h
    simp only [is_marker_valid]
    rw [if_pos (by omega)]

theorem marker_cache_freshness_witness :
    (is_marker_valid 82799 (some 0) 23).1 = true :=
  marker_cache_freshness.2.2.2.1 82799 0 (by decide)

/-- C10: a resolved expiry timestamp strictly in the future but less than
24 hours away yields `days_left = 0` (the floor of the difference in
whole 86400-second days), so the domain is classified `expired` and
pinged as a failure. -/
theorem subday_future_classified_expired (expiry now : Int)
    (h1 : now < expiry) (h2 : expiry - now < 86400) :
    days_left_of expiry now = 0 ∧
    check_expiry_report (some (days_left_of expiry now)) = ("expired", true) := by
  have hd : days_left_of expiry now = 0 := by
    unfold days_left_of
    rw [Int.fdiv_eq_ediv _ (by norm_num)]
    exact Int.ediv_eq_zero_of_lt (by omega) (by omega)
  exact ⟨hd, by rw [hd]; decide⟩

theorem subday_future_classified_expired_witness :
    days_left_of 50000 0 = 0 ∧
    check_expiry_report (some (days_left_of 50000 0)) = ("expired", true) :=
  subday_future_classified_expired 50000 0 (by decide) (by decide)

/-- C9 counterexample: with a valid API key, a `delete-markers` invocation
with none of `--domain`, `--type`, `--all` reaches
`parser.exit(0, ...)` — the process exits with code 0, not 1 as
claimed. -/
theorem delete_markers_noflags_exits_zero :
    cli_exit_code (some "key")
        (CliInvocation.deleteMarkers (DeleteMarkersArgs.mk none none false)) = some 0 ∧
    cli_exit_code (some "key")
        (CliInvocation.deleteMarkers (DeleteMarkersArgs.mk none none false)) ≠ some 1 := by
  decide

/-- C9 amended: the process exits with code 1 on configuration validation
failure (missing or empty API key, before any domain processing), but an
invalid `delete-markers` invocation with none of the disambiguating
flags exits with code 0 (after printing the help text and an error
message). -/
theorem cli_exit_code_spec :
    (∀ inv, cli_exit_code none inv = some 1) ∧
    (∀ inv, cli_exit_code (some "") inv = some 1) ∧
    (∀ key, pyTruthy key = true →
      cli_exit_code key
        (CliInvocation.deleteMarkers (DeleteMarkersArgs.mk none none false)) = some 0) := by
  refine ⟨fun inv => rfl, fun inv => rfl, ?_⟩
  intro key h
  unfold cli_exit_code validate_config
  rw [h]
  rfl

theorem cli_exit_code_spec_witness :
    cli_exit_code (some "k")
      (CliInvocation.deleteMarkers (DeleteMarkersArgs.mk none none false)) = some 0 :=
  cli_exit_code_spec.2.2 (some "k") (by decide)

/-- C6 counterexample: an unreferenced remote check named `x.com` whose
tags (`foo`) contain neither `status` nor `expiry` is placed in no slot
and silently dropped from the appended entries — it does not default to
the status slot, and no entry for it is appended. -/
theorem sync_other_tags_check_dropped :
    sync_new_entries [ApiCheck.mk "u1" "x.com" "foo"] = [] := by
  decide

/-- C6 amended: during remote-to-file sync an unreferenced check whose
tags contain `'status'` goes to the status slot of its name's entry
(this includes ambiguous tags containing both substrings); otherwise one
whose tags contain `'expiry'` goes to the expiry slot; a check whose
tags contain neither substring, or whose name is falsy, is omitted from
the appended entries without a warning. -/
theorem sync_tag_heuristic :
    (∀ c : ApiCheck, c.name ≠ "" → strContains c.tags "status" = true →
      sync_new_entries [c] = [Entry.domain c.name (some c.uuid) none]) ∧
    (∀ c : ApiCheck, c.name ≠ "" → strContains c.tags "status" = false →
      strContains c.tags "expiry" = true →
      sync_new_entries [c] = [Entry.domain c.name none (some c.uuid)]) ∧
    (∀ c : ApiCheck, strContains c.tags "status" = false →
      strContains c.tags "expiry" = false → sync_new_entries [c] = []) ∧
    (∀ c : ApiCheck, c.name = "" → sync_new_entries [c] = []) ∧
    sync_new_entries [ApiCheck.mk "u1" "x.com" "status expiry"] =
      [Entry.domain "x.com" (some "u1") none] := by
  refine ⟨?_, ?_, ?_, ?_, by decide⟩
  · intro c h1 h2
    simp [sync_new_entries, sync_missing_by_name, sync_classify_step, h1, h2,
      updAssocSlot, sortByName, insertByName]
  · intro c h1 h2 h3
    simp [sync_new_entries, sync_missing_by_name, sync_classify_step, h1, h2, h3,
      updAssocSlot, sortByName, insertByName]
  · intro c h2 h3
    by_cases h1 : c.name = "" <;>
      simp [sync_new_entries, sync_missing_by_name, sync_classify_step, h1, h2, h3,
        sortByName]
  · intro c h1
    simp [sync_new_entries, sync_missing_by_name, sync_classify_step, h1, sortByName]

theorem sync_tag_heuristic_witness :
    sync_new_entries [ApiCheck.mk "u9" "a.com" "expiry"] =
      [Entry.domain "a.com" none (some "u9")] :=
  sync_tag_heuristic.2.1 (ApiCheck.mk "u9" "a.com" "expiry")
    (by decide) (by decide) (by decide)

/-- C8 counterexample: a comment line with leading whitespace is loaded
`strip()`ped, so a pass that rewrites the file emits it without the
leading whitespace: the file is altered even though nothing was updated,
and the comment is not reproduced byte-for-byte (the trimming is not
only of trailing whitespace). -/
theorem comment_leading_whitespace_not_preserved :
    rewrite_domain_file (sync_processed_entries [] ["  # note"]) [] = ["# note"] ∧
    (["# note"] : List String) ≠ ["  # note"] := by
  decide

/-- C8 amended: comment and blank lines are reproduced trimmed of leading
and trailing whitespace (hence byte-for-byte exactly when they carry
none); a load-and-rewrite sync pass reproduces any file every line of
which individually round-trips — in particular files whose comment and
blank lines are already stripped and whose domain lines are in canonical
`<name> s:<uuid> e:<uuid>` form with live uuids. -/
theorem registry_file_roundtrip :
    (∀ api l, pyStrip l = "" ∨ pyStartsHash (pyStrip l) = true →
      sync_line_roundtrip api l = [pyStrip l]) ∧
    (∀ api (fileLines : List String),
      (∀ l ∈ fileLines, sync_line_roundtrip api l = [l]) →
      rewrite_domain_file (sync_processed_entries api fileLines) [] = fileLines) ∧
    sync_line_roundtrip ["u1", "u2"] "a.com s:u1 e:u2" = ["a.com s:u1 e:u2"] := by
  refine ⟨?_, ?_, by decide⟩
  · intro api l h
    unfold sync_line_roundtrip sync_process_line
    rcases h with h | h
    · rw [h]
      simp [entry_lines]
    · rw [h]
      simp [entry_lines, h]
  · intro api fileLines
    have base : ∀ processed, rewrite_domain_file processed [] =
        (processed.map entry_lines).flatten := by
      intro processed
      simp [rewrite_domain_file]
    induction fileLines with
    | nil => intro h; rfl
    | cons l ls ih =>
      intro h
      have hl : sync_line_roundtrip api l = [l] := h l (List.mem_cons_self l ls)
      have hls := ih (fun x hx => h x (List.mem_cons_of_mem l hx))
      rw [base] at hls ⊢
      simp only [sync_processed_entries, load_domains_raw, List.map_cons,
        List.flatten_cons] at hls ⊢
      rw [show entry_lines ((sync_process_line api (pyStrip l)).1) = [l] from hl, hls]
      rfl

theorem registry_file_roundtrip_witness :
    sync_line_roundtrip [] "# header" = ["# header"] := by
  have := registry_file_roundtrip.1 [] "# header" (Or.inr (by decide))
  simpa using this

/-- C7 counterexample: with credentials configured and a 200 response
whose `expires` field is present but malformed, the resolver returns no
date via the `malformedExpires` branch, which logs at `error` level —
not at `warn` level as the claim states for malformed expiry fields. -/
theorem godaddy_malformed_expiry_logs_error :
    _get_expiry_from_godaddy (some "k") (some "s") 0
        (GDHttp.resp 200 (GDBody.fields (some "not-a-date"))) =
      (none, GDOutcome.malformedExpires) ∧
    gdLogLevel GDOutcome.malformedExpires = LogLevel.error ∧
    gdLogLevel GDOutcome.malformedExpires ≠ LogLevel.warn := by
  decide

/-- C7 amended: without configured credentials the resolver returns no
date immediately as a debug-level skip; otherwise it translates
conditions distinctly, each returning no date — 404 as a non-error
(info), 401/403 as an error, 429 as a warning, network/timeout failure
as an error, a missing expiry field as a warning, and a malformed expiry
field (one `datetime.fromisoformat` rejects after the trailing-`Z`
rewrite) as an error; well-formed expiry strings, with or without
fractional seconds, parse and convert to a UTC date. -/
theorem godaddy_fallback_outcomes :
    (∀ sec lo h, _get_expiry_from_godaddy none sec lo h = (none, GDOutcome.skippedNoCreds)) ∧
    (∀ key lo h, _get_expiry_from_godaddy key none lo h = (none, GDOutcome.skippedNoCreds)) ∧
    (∀ key sec lo b, pyTruthy key = true → pyTruthy sec = true →
      _get_expiry_from_godaddy key sec lo (GDHttp.resp 404 b) = (none, GDOutcome.notFound)) ∧
    (∀ key sec lo b s, pyTruthy key = true → pyTruthy sec = true →
      (s = 401 ∨ s = 403) →
      _get_expiry_from_godaddy key sec lo (GDHttp.resp s b) = (none, GDOutcome.authFailure)) ∧
    (∀ key sec lo b, pyTruthy key = true → pyTruthy sec = true →
      _get_expiry_from_godaddy key sec lo (GDHttp.resp 429 b) = (none, GDOutcome.rateLimited)) ∧
    (∀ key sec lo, pyTruthy key = true → pyTruthy sec = true →
      _get_expiry_from_godaddy key sec lo GDHttp.timedOut = (none, GDOutcome.timedOut) ∧
      _get_expiry_from_godaddy key sec lo GDHttp.requestError = (none, GDOutcome.requestError)) ∧
    (∀ key sec lo, pyTruthy key = true → pyTruthy sec = true →
      _get_expiry_from_godaddy key sec lo (GDHttp.resp 200 (GDBody.fields none)) =
        (none, GDOutcome.missingExpires)) ∧
    (∀ key sec lo s, pyTruthy key = true → pyTruthy sec = true → (s == "") = false →
      fromisoformat (replaceTrailingZ s) = none →
      _get_expiry_from_godaddy key sec lo (GDHttp.resp 200 (GDBody.fields (some s))) =
        (none, GDOutcome.malformedExpires)) ∧
    gdLogLevel GDOutcome.skippedNoCreds = LogLevel.debug ∧
    gdLogLevel GDOutcome.notFound = LogLevel.info ∧
    gdLogLevel GDOutcome.authFailure = LogLevel.error ∧
    gdLogLevel GDOutcome.rateLimited = LogLevel.warn ∧
    gdLogLevel GDOutcome.timedOut = LogLevel.error ∧
    gdLogLevel GDOutcome.requestError = LogLevel.error ∧
    gdLogLevel GDOutcome.missingExpires = LogLevel.warn ∧
    gdLogLevel GDOutcome.malformedExpires = LogLevel.error ∧
    _get_expiry_from_godaddy (some "k") (some "s") 0
        (GDHttp.resp 200 (GDBody.fields (some "2025-10-22T04:00:00Z"))) =
      (some ⟨2025, 10, 22, 4, 0, 0, true⟩, GDOutcome.ok) ∧
    _get_expiry_from_godaddy (some "k") (some "s") 0
        (GDHttp.resp 200 (GDBody.fields (some "2025-10-22T04:00:00.000Z"))) =
      (some ⟨2025, 10, 22, 4, 0, 0, true⟩, GDOutcome.ok) := by
  refine ⟨fun sec lo h => rfl, ?_, ?_, ?_, ?_, ?_, ?_, ?_,
    rfl, rfl, rfl, rfl, rfl, rfl, rfl, rfl, by decide, by decide⟩
  · intro key lo h
    unfold _get_expiry_from_godaddy
    cases hk : pyTruthy key <;> simp [pyTruthy]
  · intro key sec lo b hk hs
    unfold _get_expiry_from_godaddy
    rw [hk, hs]
    rfl
  · intro key sec lo b s hk hs hstat
    unfold _get_expiry_from_godaddy
    rw [hk, hs]
    rcases hstat with rfl | rfl <;> rfl
  · intro key sec lo b hk hs
    unfold _get_expiry_from_godaddy
    rw [hk, hs]
    rfl
  · intro key sec lo hk hs
    unfold _get_expiry_from_godaddy
    rw [hk, hs]
    exact ⟨rfl, rfl⟩
  · intro key sec lo hk hs
    unfold _get_expiry_from_godaddy
    rw [hk, hs]
    rfl
  · intro key sec lo s hk hs hempty hmal
    unfold _get_expiry_from_godaddy
    rw [hk, hs]
    simp [hempty, hmal]

theorem godaddy_fallback_outcomes_witness :
    _get_expiry_from_godaddy (some "key") (some "sec") 0
      (GDHttp.resp 404 (GDBody.fields none)) = (none, GDOutcome.notFound) :=
  godaddy_fallback_outcomes.2.2.1 (some "key") (some "sec") 0
    (GDBody.fields none) (by decide) (by decide)

/-! ## Helper lemmas for the WHOIS extractor -/

theorem parseLoop_eq_findSome :
    ∀ (ps : List (List String × CaptureKind)) (cs : List Char),
      parseLoop ps cs =
        ps.findSome? (fun p =>
          (reSearch p.1 p.2 cs).bind (fun cap => parseDateString (pyStripChars cap)))
  | [], _ => rfl
  | p :: ps, cs => by
    simp only [parseLoop, List.findSome?]
    cases reSearch p.1 p.2 cs with
    | none => simpa using parseLoop_eq_findSome ps cs
    | some cap =>
      simp only [Option.bind]
      cases parseDateString (pyStripChars cap) with
      | none => simpa using parseLoop_eq_findSome ps cs
      | some dt => rfl

theorem tryUnixTimestamp_tzUtc {cs : List Char} {dt : PyDateTime}
    (h : tryUnixTimestamp cs = some dt) : dt.tzUtc = true := by
  unfold tryUnixTimestamp at h
  by_cases hc : (cs.all isDigitChar && (cs.length == 10 || cs.length == 13)) = true
  · rw [if_pos hc] at h
    cases h
    rfl
  · rw [if_neg hc] at h
    exact absurd h (by simp)

theorem tryFormats_tzUtc :
    ∀ (fs : List (List FmtItem)) (cs : List Char) (dt : PyDateTime),
      tryFormats fs cs = some dt → dt.tzUtc = true
  | [], _, _, h => by simp [tryFormats] at h
  | f :: fs, cs, dt, h => by
    simp only [tryFormats] at h
    cases hs : strptime? f cs with
    | none => rw [hs] at h; exact tryFormats_tzUtc fs cs dt h
    | some d0 => rw [hs] at h; cases h; rfl

theorem parseDateString_tzUtc {cs : List Char} {dt : PyDateTime}
    (h : parseDateString cs = some dt) : dt.tzUtc = true := by
  unfold parseDateString at h
  by_cases he : cs.isEmpty = true
  · rw [if_pos he] at h
    exact absurd h (by simp)
  · rw [if_neg he] at h
    cases hu : tryUnixTimestamp cs with
    | none => rw [hu] at h; exact tryFormats_tzUtc _ _ _ h
    | some d0 => rw [hu] at h; cases h; exact tryUnixTimestamp_tzUtc hu

theorem parseLoop_tzUtc :
    ∀ (ps : List (List String × CaptureKind)) (cs : List Char) (dt : PyDateTime),
      parseLoop ps cs = some dt → dt.tzUtc = true
  | [], _, _, h => by simp [parseLoop] at h
  | p :: ps, cs, dt, h => by
    simp only [parseLoop] at h
    cases hr : reSearch p.1 p.2 cs with
    | none => simp only [hr] at h; exact parseLoop_tzUtc ps cs dt h
    | some cap =>
      simp only [hr] at h
      cases hp : parseDateString (pyStripChars cap) with
      | none => simp only [hp] at h; exact parseLoop_tzUtc ps cs dt h
      | some d0 => simp only [hp] at h; cases h; exact parseDateString_tzUtc hp

/-- C3: the extractor applies its patterns in list order; for the first
pattern that matches it tries only that match's captured value (the
leftmost match, so a failed parse never retries the same pattern
elsewhere in the text but moves to the next pattern); if no pattern
matches or every captured value fails to parse it returns `none` without
raising (it is a total function into `Option`); and any returned
timestamp carries UTC, naive parsed values being stamped UTC.  The
concrete cases: a parse failure of pattern 3's first match is final even
though the same pattern would match a parsable value later in the text;
an unparsable captured value yields `none`; unlabelled text yields
`none`; and pattern 1 wins over a textually earlier pattern-2 match. -/
theorem whois_extractor_pattern_order :
    (∀ text : String,
      _parse_expiry_from_whois text =
        whoisPatterns.findSome? (fun p =>
          (reSearch p.1 p.2 text.toList).bind
            (fun cap => parseDateString (pyStripChars cap)))) ∧
    (∀ text dt, _parse_expiry_from_whois text = some dt → dt.tzUtc = true) ∧
    _parse_expiry_from_whois "Expiration Time: garbage\nExpiration Time: 2029-12-31" =
      none ∧
    _parse_expiry_from_whois "Expiry Date: not-a-date" = none ∧
    _parse_expiry_from_whois "Domain is active." = none ∧
    _parse_expiry_from_whois "" = none ∧
    _parse_expiry_from_whois
        "expires: 31-Dec-2029\nRegistry Expiry Date: 2025-10-22T04:00:00Z" =
      some ⟨2025, 10, 22, 4, 0, 0, true⟩ := by
  refine ⟨?_, ?_, by decide, by decide, by decide, by decide, by decide⟩
  · intro text
    by_cases ht : text = ""
    · subst ht
      decide
    · unfold _parse_expiry_from_whois
      rw [if_neg (by simpa using ht)]
      exact parseLoop_eq_findSome _ _
  · intro text dt h
    unfold _parse_expiry_from_whois at h
    by_cases ht : (text == "") = true
    · rw [if_pos ht] at h
      exact absurd h (by simp)
    · rw [if_neg ht] at h
      exact parseLoop_tzUtc _ _ _ h

theorem whois_extractor_pattern_order_witness :
    (⟨2025, 10, 22, 4, 0, 0, true⟩ : PyDateTime).tzUtc = true :=
  whois_extractor_pattern_order.2.1 "Registry Expiry Date: 2025-10-22T04:00:00Z"
    ⟨2025, 10, 22, 4, 0, 0, true⟩ (by decide)
